import Mathlib

/-!
Verification of the ControlNet interior-design pipeline repository
(ml6team/fondant-usecase-controlnet).

The repository consists of a notebook (src/pipeline.ipynb) that builds a
Fondant dataset pipeline: a custom prompt-generation component followed by
reusable retrieval / download / caption / segmentation stages and an optional
generic write stage.  The prompt-generation component and the notebook-level
pipeline wiring are in the repository sources and are embedded here directly.
The pipeline-graph construction, validation and compilation machinery lives in
the external fondant library (not in the repository sources); following the
specification, those parts are modelled from the spec (each such definition is
marked "Modelled from the spec:" in its doc comment).
-/

/- ===================================================================
   Part 1: Schema registry
   =================================================================== -/

/-- Modelled from the spec: the closed set of primitive/logical field types
(boolean, integer, float, string, binary, list-of(T), struct).  The struct
case is kept abstract since no claim inspects struct internals. -/
inductive FieldType where
  | boolean
  | integer
  | int32
  | float
  | string
  | binary
  | listOf (t : FieldType)
  | structT
deriving DecidableEq, Repr

/-- Modelled from the spec: a Schema maps a subset name (e.g. "images",
"captions") to an ordered list of named, typed fields. -/
abbrev Schema : Type := List (String × List (String × FieldType))

/-- Modelled from the spec: look up the type of field fn in subset sn of a
schema.  When duplicate subset names occur, the first occurrence wins (the
spec's tie-break: the first upstream providing a subset name wins). -/
def lookupFieldType (s : Schema) (sn fn : String) : Option FieldType :=
  match List.find? (fun p => p.1 = sn) s with
  | none => none
  | some (_, fields) => (List.find? (fun p => p.1 = fn) fields).map (fun p => p.2)

/-- Modelled from the spec: is_subset required available is true iff every
subset name in required exists in available and every field in it exists in
the corresponding subset of available with an identical type (no coercion). -/
def is_subset (required available : Schema) : Bool :=
  List.all required (fun p =>
    List.all p.2 (fun f => lookupFieldType available p.1 f.1 = some f.2))

/-- Modelled from the spec: the structured mismatch report, a list of
(subset, field, expected_type, actual_type_or_missing) tuples with one entry
for every missing or mismatched field of the required schema. -/
def schemaMismatches (required available : Schema) :
    List (String × String × FieldType × Option FieldType) :=
  required.flatMap (fun p =>
    p.2.filterMap (fun f =>
      match lookupFieldType available p.1 f.1 with
      | none => some (p.1, f.1, f.2, none)
      | some t => if t = f.2 then none else some (p.1, f.1, f.2, some t)))

/- ===================================================================
   Part 2: the generate_prompts component
   (embedded from src/pipeline.ipynb, GeneratePromptsComponent)
   =================================================================== -/

/-- Model of Python str.lower as used by make_interior_prompt: ASCII letters
are lowercased, other characters (such as the é of "bouclé") are unchanged,
which agrees with Python str.lower on all strings occurring in the source. -/
def pyLower (s : String) : String := ⟨s.data.map Char.toLower⟩

/-- Model of Python truthiness for an Optional[int]: None and 0 are falsy,
every other integer is truthy. -/
def pyTruthy : Option Int → Bool
  | none => false
  | some k => k ≠ 0

/-- Model of pandas DataFrame.head(n): the first n rows for n ≥ 0, and all
rows except the last |n| for negative n. -/
def pandasHead (n : Int) (l : List String) : List String :=
  if 0 ≤ n then l.take n.toNat else l.take (l.length - (-n).toNat)

/-- Model of the dask dataframe produced by GeneratePromptsComponent.load:
the column names, the rows of the single string column, and the number of
partitions. -/
structure DataFrameModel where
  columns : List String
  rows : List String
  npartitions : Nat
deriving DecidableEq, Repr

namespace GeneratePromptsComponent

/-- The interior_styles class attribute of GeneratePromptsComponent,
verbatim from the source ("rustic" and "coastal" both occur twice). -/
def interior_styles : List String :=
  ["art deco", "bauhaus", "bouclé", "maximalist", "brutalist", "coastal",
   "minimalist", "rustic", "hollywood regency", "midcentury modern",
   "modern organic", "contemporary", "modern", "scandinavian", "eclectic",
   "bohemiam", "industrial", "traditional", "transitional", "farmhouse",
   "country", "asian", "mediterranean", "rustic", "southwestern", "coastal"]

/-- The interior_prefix class attribute of GeneratePromptsComponent (renamed
to interior_prefixes here). -/
def interior_prefixes : List String :=
  ["comfortable", "luxurious", "simple"]

/-- The rooms class attribute of GeneratePromptsComponent, verbatim from the
source. -/
def rooms : List String :=
  ["Bathroom", "Living room", "Hotel room", "Lobby", "Entrance hall",
   "Kitchen", "Family room", "Master bedroom", "Bedroom", "Kids bedroom",
   "Laundry room", "Guest room", "Home office", "Library room", "Playroom",
   "Home Theater room", "Gym room", "Basement room", "Garage",
   "Walk-in closet", "Pantry", "Gaming room", "Attic", "Sunroom",
   "Storage room", "Study room", "Dining room", "Loft", "Studio room",
   "Appartement"]

/-- make_interior_prompt from the source: the f-string
"{prefix.lower()} {room.lower()}, {style.lower()} interior design"
(the prefix parameter is called pre here). -/
def make_interior_prompt (room pre style : String) : String :=
  pyLower pre ++ " " ++ pyLower room ++ ", " ++ pyLower style ++ " interior design"

/-- itertools.product(self.rooms, self.interior_prefix, self.interior_styles):
the rightmost factor varies fastest. -/
def room_tuples : List (String × String × String) :=
  rooms.flatMap (fun r =>
    interior_prefixes.flatMap (fun p =>
      interior_styles.map (fun s => (r, p, s))))

/-- GeneratePromptsComponent.load from the source: builds the full prompt
list, truncates with head(n_rows_to_load) only when n_rows_to_load is truthy,
and wraps the result in a single-partition dataframe with the single column
"prompt". -/
def load (n_rows_to_load : Option Int) : DataFrameModel :=
  let prompts := room_tuples.map (fun x => make_interior_prompt x.1 x.2.1 x.2.2)
  let pandas_df :=
    if pyTruthy n_rows_to_load then pandasHead (n_rows_to_load.getD 0) prompts
    else prompts
  { columns := ["prompt"], rows := pandas_df, npartitions := 1 }

end GeneratePromptsComponent

/-- The prompt template as the specification describes it, written
independently of the source for comparison: fully lowercased, comma-separated,
ending in "interior design". -/
def specPromptTemplate (room pre style : String) : String :=
  pyLower pre ++ " " ++ pyLower room ++ ", " ++ pyLower style ++ " interior design"

/-- The alternative "photo of a {room} in the style of {style}" template
mentioned in the notebook prose, for contrast. -/
def photoPromptTemplate (room style : String) : String :=
  "a photo of a " ++ room ++ " in the style of " ++ style

/- ===================================================================
   Part 3: stage descriptors, the pipeline graph, validation, compilation
   (modelled from the spec; the machinery lives in the external fondant
   library, the repository only calls it)
   =================================================================== -/

/-- Resources as requested by the source notebook: accelerator_number and
accelerator_name (the notebook sets either count 1 with name "GPU", or both
None).  The count is modelled as Int so that non-negativity is a statement,
not a typing artifact. -/
structure Resources where
  accelerator_number : Option Int := none
  accelerator_name : Option String := none
deriving DecidableEq, Repr

/-- Modelled from the spec: a StageDescriptor — name, opaque executable
reference, resolved argument assignment, consumes/produces schemas, resource
request, and the ordered upstream list.  Upstreams are indices of earlier
stages of the append-only builder list (edge-declaration order). -/
structure Stage where
  name : String
  executableRef : String
  args : List (String × String)
  consumes : Schema
  produces : Schema
  resources : Resources
  upstreams : List Nat
deriving DecidableEq, Repr

/-- Placeholder stage returned for out-of-range indices. -/
def dummyStage : Stage :=
  { name := "", executableRef := "", args := [], consumes := [], produces := [],
    resources := {}, upstreams := [] }

/-- Stage at index i of the graph (dummy when out of range); defined
recursively so that concrete lookups reduce without computing the length. -/
def dstage : List Stage → Nat → Stage
  | [], _ => dummyStage
  | s :: _, 0 => s
  | _ :: rest, n + 1 => dstage rest n

/-- Well-formedness of the append-only DAG builder output: every upstream of
stage i was declared before i.  Acyclicity is immediate from this shape,
which is the spec's "impossible by construction in an append-only DAG
builder". -/
def wffb (g : List Stage) : Bool :=
  (List.range g.length).all (fun i => (dstage g i).upstreams.all (fun u => u < i))

/-- Order on argument bindings used for canonicalization (by argument name,
compared as character lists so that concrete comparisons evaluate). -/
def argLE : String × String → String × String → Prop := fun a b => a.1.data ≤ b.1.data

instance : DecidableRel argLE :=
  fun a b => inferInstanceAs (Decidable (a.1.data ≤ b.1.data))

/-- Modelled from the spec: canonicalization of an argument assignment —
consistent ordering of the name/value pairs so that semantically identical
argument sets yield identical keys. -/
def canonArgs (args : List (String × String)) : List (String × String) :=
  List.insertionSort argLE args

/-- Modelled from the spec: a cache key
hash(executable_ref, canonicalized_arguments, sorted(upstream_cache_keys)).
The ideal (collision-free) hash is modelled as the injective constructor of
an inductive tree. -/
inductive CacheKey where
  | mk (ref : String) (args : List (String × String)) (ups : List CacheKey)

/-- The ref component of a cache key. -/
def keyRef : CacheKey → String
  | .mk r _ _ => r

/-- Total preorder used to sort upstream cache keys deterministically (by the
ref component, compared as character lists). -/
def keyLE : CacheKey → CacheKey → Prop := fun a b => (keyRef a).data ≤ (keyRef b).data

instance : DecidableRel keyLE :=
  fun a b => inferInstanceAs (Decidable ((keyRef a).data ≤ (keyRef b).data))

/-- Modelled from the spec: sorted(upstream_cache_keys). -/
def sortKeys (l : List CacheKey) : List CacheKey := List.insertionSort keyLE l

/-- The args component of a cache key. -/
def keyArgs : CacheKey → List (String × String)
  | .mk _ a _ => a

/-- Cache key of stage i, computed with explicit fuel so that the definition
is structural (the fuel i+1 always suffices on well-formed graphs, where
upstream indices strictly decrease). -/
def keyAtF (g : List Stage) : Nat → Nat → CacheKey
  | 0, _ => CacheKey.mk "" [] []
  | fuel + 1, i =>
    CacheKey.mk (dstage g i).executableRef (canonArgs (dstage g i).args)
      (sortKeys ((dstage g i).upstreams.map (fun u => keyAtF g fuel u)))

/-- Modelled from the spec: the deterministic cache key of stage i, derived
from the stage's executable_ref, its canonicalized arguments, and the sorted
cache keys of its upstreams. -/
def keyAt (g : List Stage) (i : Nat) : CacheKey := keyAtF g (i + 1) i

/-- Schema available to stage i (fuel-structural): the union, in
edge-declaration order, of the produces of all transitive upstreams — the
dataset accumulates the subsets produced along the way, so a stage may
consume a subset produced by any ancestor. -/
def availAtF (g : List Stage) : Nat → Nat → Schema
  | 0, _ => []
  | fuel + 1, i =>
    (dstage g i).upstreams.flatMap (fun u => availAtF g fuel u ++ (dstage g u).produces)

/-- Modelled from the spec: the union of the produces schemas of the
(transitive) upstreams of stage i, against which its consumes is checked. -/
def availAt (g : List Stage) (i : Nat) : Schema := availAtF g (i + 1) i

/-- Reachability s to i along graph edges (fuel-structural), deciding "i is s
or downstream of s". -/
def reachF (g : List Stage) (s : Nat) : Nat → Nat → Bool
  | 0, i => i == s
  | fuel + 1, i =>
    i == s || (dstage g i).upstreams.any (fun u => reachF g s fuel u)

/-- Stage i is stage s itself or a (transitive) downstream of s. -/
def reach (g : List Stage) (s i : Nat) : Bool := reachF g s (i + 1) i

/-- Modelled from the spec: the build-time error taxonomy (SchemaError,
CycleError, ResourceError, FrozenGraphError; overrideErr is the SchemaError
raised by generic-stage instantiation, emptyConsumesErr the violation of the
invariant that exactly the source stages have empty consumes). -/
inductive PipelineError where
  | schemaErr (stage : Nat)
      (mismatches : List (String × String × FieldType × Option FieldType))
  | cycleErr (stage : Nat)
  | emptyConsumesErr (stage : Nat)
  | resourceErr (stage : Nat)
  | overrideErr (missing : List FieldType)
  | frozenGraphErr
deriving DecidableEq, Repr

/-- Modelled from the spec: resource sanity — the accelerator count is absent
or a non-negative integer, and a positive count requires an accelerator
kind. -/
def resourceOk (r : Resources) : Bool :=
  match r.accelerator_number with
  | none => true
  | some n => decide (0 ≤ n) && (!(decide (0 < n)) || r.accelerator_name.isSome)

/-- Modelled from the spec: all static checks for one stage — acyclicity
(upstreams precede the stage in the append-only builder), per-edge schema
compatibility reported as a structured mismatch list, the source/consumes
shape invariant (exactly the stages with no incoming edge have empty
consumes), and resource sanity. -/
def validateStage (g : List Stage) (i : Nat) : List PipelineError :=
  (if (dstage g i).upstreams.all (fun u => u < i) then [] else [.cycleErr i])
  ++ (if schemaMismatches (dstage g i).consumes (availAt g i) = [] then []
      else [.schemaErr i (schemaMismatches (dstage g i).consumes (availAt g i))])
  ++ (if (dstage g i).upstreams.isEmpty == (dstage g i).consumes.isEmpty then []
      else [.emptyConsumesErr i])
  ++ (if resourceOk (dstage g i).resources then [] else [.resourceErr i])

/-- Modelled from the spec: full validation collects the failures of every
stage (never short-circuiting on the first). -/
def validate (g : List Stage) : List PipelineError :=
  (List.range g.length).flatMap (validateStage g)

/-- Modelled from the spec: finalize() runs full validation and freezes the
graph, returning all collected errors on failure. -/
def finalizeGraph (g : List Stage) : Except (List PipelineError) (List Stage) :=
  if validate g = [] then .ok g else .error (validate g)

/-- Modelled from the spec: one entry of the execution manifest — stage name,
deterministic cache key and resolved resource request, in topological
(declaration) order. -/
structure ManifestEntry where
  stageName : String
  cacheKey : CacheKey
  resources : Resources

/-- Modelled from the spec: compile lowers a graph to its execution manifest,
one entry per stage in declaration order. -/
def compileManifest (g : List Stage) : List ManifestEntry :=
  (List.range g.length).map (fun i =>
    { stageName := (dstage g i).name, cacheKey := keyAt g i,
      resources := (dstage g i).resources })

/-- Modelled from the spec: add_source inserts a stage with no upstream and
fails if its consumes schema is non-empty. -/
def add_source (g : List Stage) (st : Stage) : Except PipelineError (List Stage) :=
  if st.consumes = [] then .ok (g ++ [{ st with upstreams := [] }])
  else .error (.emptyConsumesErr g.length)

/-- Modelled from the spec: a generic stage — a template descriptor whose
consumes/produces are placeholders, together with its declared minimum
capability set (field types of which at least one field must be present in
the consumes override; the generic write stage requires one binary field). -/
structure GenericStage where
  base : Stage
  capability : List FieldType

/-- Modelled from the spec: the consumes override satisfies the minimum
capability set when every required capability type has at least one field of
that type somewhere in the override. -/
def satisfiesCapability (cap : List FieldType) (s : Schema) : Bool :=
  cap.all (fun t => s.any (fun p => p.2.any (fun f => f.2 = t)))

/-- Modelled from the spec: instantiate(generic, consumes_override,
produces_override) returns a fresh concrete StageDescriptor, failing with a
SchemaError when the override does not satisfy the declared minimum
capability set. -/
def instantiate (gen : GenericStage) (consumesOverride producesOverride : Schema) :
    Except PipelineError Stage :=
  if satisfiesCapability gen.capability consumesOverride then
    .ok { gen.base with consumes := consumesOverride, produces := producesOverride }
  else
    .error (.overrideErr
      (gen.capability.filter
        (fun t => !(consumesOverride.any (fun p => p.2.any (fun f => f.2 = t))))))

/-- The graph with only stage s's argument values replaced (the modification
considered by the frame claim about cache keys). -/
def setArgs (g : List Stage) (s : Nat) (newArgs : List (String × String)) : List Stage :=
  g.set s { dstage g s with args := newArgs }

mutual

/-- Number of nodes of a cache-key tree whose (ref, args) label equals t;
the measure used to show which cache keys change when one stage's arguments
change. -/
def cntNodes (t : String × List (String × String)) : CacheKey → Nat
  | .mk r a us => (if (r, a) = t then 1 else 0) + cntNodesList t us

/-- Sum of cntNodes over a list of cache keys. -/
def cntNodesList (t : String × List (String × String)) : List CacheKey → Nat
  | [] => 0
  | k :: ks => cntNodes t k + cntNodesList t ks

end

/- ===================================================================
   Part 4: the concrete ControlNet pipeline of the notebook
   (stage wiring from src/pipeline.ipynb; schemas follow the spec's
   end-to-end scenario and the write component's fondant_component.yaml)
   =================================================================== -/

/-- Resource request built by the notebook's environment check: count 1 with
name "GPU" when nvidia-smi succeeds, both None otherwise — count and name are
always set together. -/
def envResources (gpuFound : Bool) : Resources :=
  if gpuFound then { accelerator_number := some 1, accelerator_name := some "GPU" }
  else { accelerator_number := none, accelerator_name := none }

/-- The generate_prompts source stage: consumes nothing, produces the
"prompts" subset with the string field "prompt" (pipeline.read in the
notebook). -/
def generate_prompts_stage : Stage :=
  { name := "generate_prompts", executableRef := "components/generate_prompts",
    args := [("n_rows_to_load", "10")], consumes := [],
    produces := [("prompts", [("prompt", FieldType.string)])],
    resources := {}, upstreams := [] }

/-- The retrieval stage (prompts.apply "retrieve_from_faiss_by_prompt" in the
notebook), with the notebook's arguments and resources. -/
def retrieve_stage (gpu : Bool) : Stage :=
  { name := "retrieve_from_faiss_by_prompt",
    executableRef := "retrieve_from_faiss_by_prompt",
    args := [("url_mapping_path",
              "hf://datasets/fondant-ai/datacomp-small-clip/id_mapping"),
             ("faiss_index_path",
              "hf://datasets/fondant-ai/datacomp-small-clip/faiss"),
             ("num_images", "2")],
    consumes := [("prompts", [("prompt", FieldType.string)])],
    produces := [("urls", [("url", FieldType.string)])],
    resources := envResources gpu, upstreams := [0] }

/-- The download stage (image_urls.apply "download_images"), with the
notebook's arguments; no resource request. -/
def download_images_stage : Stage :=
  { name := "download_images", executableRef := "download_images",
    args := [("timeout", "1"), ("retries", "0"), ("image_size", "512"),
             ("resize_mode", "center_crop"), ("resize_only_if_bigger", "False"),
             ("min_image_size", "0"), ("max_aspect_ratio", "2.5")],
    consumes := [("urls", [("url", FieldType.string)])],
    produces := [("images", [("data", FieldType.binary)])],
    resources := {}, upstreams := [1] }

/-- The caption stage (images.apply "caption_images"), with the notebook's
arguments and resources. -/
def caption_images_stage (gpu : Bool) : Stage :=
  { name := "caption_images", executableRef := "caption_images",
    args := [("model_id", "Salesforce/blip-image-captioning-base"),
             ("batch_size", "8"), ("max_new_tokens", "50")],
    consumes := [("images", [("data", FieldType.binary)])],
    produces := [("captions", [("text", FieldType.string)])],
    resources := envResources gpu, upstreams := [2] }

/-- The segmentation stage (captions.apply "segment_images"), consuming the
images subset produced upstream, with the notebook's arguments and
resources. -/
def segment_images_stage (gpu : Bool) : Stage :=
  { name := "segment_images", executableRef := "segment_images",
    args := [("model_id", "openmmlab/upernet-convnext-small"),
             ("batch_size", "8")],
    consumes := [("images", [("data", FieldType.binary)])],
    produces := [("segmentations", [("data", FieldType.binary)])],
    resources := envResources gpu, upstreams := [3] }

/-- The linear ControlNet pipeline of the notebook: source, retrieval,
download, caption, segmentation, in declaration order. -/
def controlnetPipeline (gpu : Bool) : List Stage :=
  [generate_prompts_stage, retrieve_stage gpu, download_images_stage,
   caption_images_stage gpu, segment_images_stage gpu]

/-- The segmentation stage's arguments with only batch_size changed — the
modification used to observe the cache-key frame property. -/
def segment_args_v2 : List (String × String) :=
  [("model_id", "openmmlab/upernet-convnext-small"), ("batch_size", "16")]

/-- The pipeline recompiled after changing only the final stage's
arguments. -/
def controlnetPipelineV2 (gpu : Bool) : List Stage :=
  setArgs (controlnetPipeline gpu) 4 segment_args_v2

/-- The generic write_to_hf_hub stage of the notebook: its consumes/produces
are placeholders overridden at pipeline-definition time; a write stage
requires at least one binary field in its consumes override. -/
def write_to_hf_hub : GenericStage :=
  { base := { name := "Write to hub", executableRef := "fndnt/write_to_hf_hub:0.6.2",
              args := [("hf_token", "token"), ("username", "user"),
                       ("dataset_name", "fondant-controlnet-dataset"),
                       ("image_column_names", "[image]")],
              consumes := [], produces := [], resources := {}, upstreams := [4] },
    capability := [FieldType.binary] }

/-- The consumes override written by the notebook's
components/write_to_hub_controlnet/fondant_component.yaml. -/
def writeConsumesControlnet : Schema :=
  [("images", [("data", FieldType.binary)]),
   ("captions", [("text", FieldType.string)]),
   ("segmentations", [("data", FieldType.binary)])]

/-- The flat consumes override of the newer notebook (image, image_width,
image_height), rendered as a single subset. -/
def writeConsumesHub : Schema :=
  [("images", [("image", FieldType.binary), ("image_width", FieldType.int32),
               ("image_height", FieldType.int32)])]

/-- A consumes override with no binary field, violating the write stage's
minimum capability set. -/
def writeConsumesNoBinary : Schema :=
  [("captions", [("text", FieldType.string)])]

/-- A two-stage graph with a field-name mismatch: the source produces
captions.text (string), the consumer requires captions.caption (string),
which is absent — the end-to-end SchemaError scenario. -/
def mismatchPipeline : List Stage :=
  [{ name := "captioner", executableRef := "captioner", args := [],
     consumes := [], produces := [("captions", [("text", FieldType.string)])],
     resources := {}, upstreams := [] },
   { name := "caption_consumer", executableRef := "caption_consumer", args := [],
     consumes := [("captions", [("caption", FieldType.string)])],
     produces := [("filtered", [("caption", FieldType.string)])],
     resources := {}, upstreams := [0] }]

/-- A fan-out graph used to witness the cache-key frame property: one source,
two sibling branches (stages 1 and 2), and a stage downstream of branch 1. -/
def fanOutPipeline : List Stage :=
  [{ name := "src", executableRef := "src", args := [],
     consumes := [], produces := [("prompts", [("prompt", FieldType.string)])],
     resources := {}, upstreams := [] },
   { name := "a", executableRef := "a", args := [("x", "1")],
     consumes := [("prompts", [("prompt", FieldType.string)])],
     produces := [("urls", [("url", FieldType.string)])],
     resources := {}, upstreams := [0] },
   { name := "b", executableRef := "b", args := [("y", "1")],
     consumes := [("prompts", [("prompt", FieldType.string)])],
     produces := [("images", [("data", FieldType.binary)])],
     resources := {}, upstreams := [0] },
   { name := "c", executableRef := "c", args := [("z", "1")],
     consumes := [("urls", [("url", FieldType.string)])],
     produces := [("captions", [("text", FieldType.string)])],
     resources := {}, upstreams := [1] }]

/-- New arguments for stage 1 of the fan-out graph. -/
def fanOutArgsV2 : List (String × String) := [("x", "2")]

/- ===================================================================
   Theorems
   =================================================================== -/

theorem is_subset_iff_no_mismatches (required available : Schema) :
    is_subset required available = true ↔ schemaMismatches required available = [] := by
  unfold is_subset schemaMismatches
  rw [List.all_eq_true, List.flatMap_eq_nil_iff]
  constructor
  · intro h p hp
    rw [List.filterMap_eq_nil_iff]
    intro f hf
    have := List.all_eq_true.mp (h p hp) f hf
    simp only [decide_eq_true_eq] at this
    rw [this]
    simp
  · intro h p hp
    rw [List.all_eq_true]
    intro f hf
    have := List.filterMap_eq_nil_iff.mp (h p hp) f hf
    simp only [decide_eq_true_eq]
    cases hl : lookupFieldType available p.1 f.1 with
    | none => rw [hl] at this; simp at this
    | some t =>
      rw [hl] at this
      by_cases ht : t = f.2
      · exact congrArg some ht
      · simp [ht] at this

/-- Every required field whose type is not found identically in the available
schema is named in the mismatch report, together with the actual type found
(or none when the field is absent). -/
theorem mem_schemaMismatches_of_missing (required available : Schema)
    (sn : String) (fields : List (String × FieldType)) (fn : String) (ft : FieldType)
    (hsub : (sn, fields) ∈ required) (hf : (fn, ft) ∈ fields)
    (hmiss : lookupFieldType available sn fn ≠ some ft) :
    (sn, fn, ft, lookupFieldType available sn fn) ∈ schemaMismatches required available := by
  unfold schemaMismatches
  rw [List.mem_flatMap]
  refine ⟨(sn, fields), hsub, ?_⟩
  rw [List.mem_filterMap]
  refine ⟨(fn, ft), hf, ?_⟩
  cases hl : lookupFieldType available sn fn with
  | none => rfl
  | some t =>
    rw [hl] at hmiss
    have ht : t ≠ ft := fun h => hmiss (by rw [h])
    simp [ht]

theorem length_flatMap_map {β γ δ : Type} (bs : List β) (cs : List γ) (f : β → γ → δ) :
    (bs.flatMap (fun b => cs.map (f b))).length = bs.length * cs.length := by
  induction bs with
  | nil => simp
  | cons hd tl ih => simp [List.flatMap_cons, ih, Nat.succ_mul, Nat.add_comm]

theorem length_flatMap_triple {α β γ δ : Type} (as : List α) (bs : List β) (cs : List γ)
    (f : α → β → γ → δ) :
    (as.flatMap (fun a => bs.flatMap (fun b => cs.map (f a b)))).length
      = as.length * (bs.length * cs.length) := by
  induction as with
  | nil => simp
  | cons hd tl ih =>
    rw [List.flatMap_cons, List.length_append, length_flatMap_map, ih, List.length_cons,
      Nat.succ_mul, Nat.add_comm]

theorem room_tuples_length :
    GeneratePromptsComponent.room_tuples.length = 2340 := by
  unfold GeneratePromptsComponent.room_tuples
  rw [length_flatMap_triple]
  rfl

/-- C9: for every room, prefix and style, make_interior_prompt returns exactly
the fully lowercased comma-separated template
"{prefix.lower()} {room.lower()}, {style.lower()} interior design", and (for a
sample input) this is not the "photo of a {room} in the style of {style}"
template the notebook prose describes. -/
theorem c9_make_interior_prompt_template :
    (∀ room pre style : String,
      GeneratePromptsComponent.make_interior_prompt room pre style
        = specPromptTemplate room pre style)
    ∧ GeneratePromptsComponent.make_interior_prompt "Bathroom" "comfortable" "rustic"
        ≠ photoPromptTemplate "Bathroom" "rustic" := by
  constructor
  · intro room pre style
    rfl
  · decide

/-- C8: with n_rows_to_load = 0, GeneratePromptsComponent.load behaves exactly
as with n_rows_to_load = None: the head() truncation is only applied when
n_rows_to_load is truthy, so the full prompt list is returned, not zero
rows. -/
theorem c8_zero_n_rows_to_load_loads_all :
    GeneratePromptsComponent.load (some 0) = GeneratePromptsComponent.load none
    ∧ (GeneratePromptsComponent.load (some 0)).rows
        = GeneratePromptsComponent.room_tuples.map
            (fun x => GeneratePromptsComponent.make_interior_prompt x.1 x.2.1 x.2.2)
    ∧ (GeneratePromptsComponent.load (some 0)).rows.length ≠ 0 := by
  refine ⟨rfl, rfl, ?_⟩
  show (GeneratePromptsComponent.room_tuples.map _).length ≠ 0
  rw [List.length_map, room_tuples_length]
  decide

set_option maxRecDepth 2000 in
/-- C10: with n_rows_to_load unset, load returns exactly 30 x 3 x 26 = 2340
rows (the full product rooms x prefixes x styles) in a single column named
"prompt" and a single partition, and because "rustic" occurs twice in
interior_styles, rows 7 and 23 hold the same prompt string (a duplicate). -/
theorem c10_load_full_product :
    (GeneratePromptsComponent.load none).columns = ["prompt"]
    ∧ (GeneratePromptsComponent.load none).npartitions = 1
    ∧ (GeneratePromptsComponent.load none).rows.length = 2340
    ∧ (GeneratePromptsComponent.load none).rows.get? 7
        = (GeneratePromptsComponent.load none).rows.get? 23
    ∧ (GeneratePromptsComponent.load none).rows.get? 7
        = some "comfortable bathroom, rustic interior design" := by
  have h7 : GeneratePromptsComponent.room_tuples.get? 7
      = some ("Bathroom", "comfortable", "rustic") := by decide
  have h23 : GeneratePromptsComponent.room_tuples.get? 23
      = some ("Bathroom", "comfortable", "rustic") := by decide
  have hrows : (GeneratePromptsComponent.load none).rows
      = GeneratePromptsComponent.room_tuples.map
          (fun x => GeneratePromptsComponent.make_interior_prompt x.1 x.2.1 x.2.2) := rfl
  refine ⟨rfl, rfl, ?_, ?_, ?_⟩
  · rw [hrows, List.length_map, room_tuples_length]
  · rw [hrows, List.get?_map, List.get?_map, h7, h23]
  · rw [hrows, List.get?_map, h7]
    decide

theorem any_congr_mem {α : Type} (l : List α) (p q : α → Bool)
    (h : ∀ x ∈ l, p x = q x) : l.any p = l.any q := by
  induction l with
  | nil => rfl
  | cons hd tl ih =>
    simp only [List.any_cons, h hd (by simp), ih (fun x hx => h x (by simp [hx]))]

theorem flatMap_congr_mem {α β : Type} (l : List α) (p q : α → List β)
    (h : ∀ x ∈ l, p x = q x) : l.flatMap p = l.flatMap q := by
  induction l with
  | nil => rfl
  | cons hd tl ih =>
    simp only [List.flatMap_cons, h hd (by simp), ih (fun x hx => h x (by simp [hx]))]

theorem dstage_eq_get? (g : List Stage) (i : Nat) :
    dstage g i = (g.get? i).getD dummyStage := by
  induction g generalizing i with
  | nil => cases i <;> rfl
  | cons hd tl ih =>
    cases i with
    | zero => rfl
    | succ n => simpa [dstage, List.get?] using ih n

theorem dstage_of_ge (g : List Stage) (i : Nat) (h : g.length ≤ i) :
    dstage g i = dummyStage := by
  rw [dstage_eq_get?, List.get?_eq_getElem?, List.getElem?_eq_none (by omega)]
  rfl

theorem wffb_ups (g : List Stage) (hw : wffb g = true) (i : Nat) :
    ∀ u ∈ (dstage g i).upstreams, u < i := by
  intro u hu
  by_cases hi : i < g.length
  · have := List.all_eq_true.mp hw i (List.mem_range.mpr hi)
    have := List.all_eq_true.mp this u hu
    simpa using this
  · rw [dstage_of_ge g i (by omega)] at hu
    simp [dummyStage] at hu

theorem keyAtF_stable (g : List Stage) (hw : wffb g = true) :
    ∀ f i, i < f → keyAtF g f i = keyAt g i := by
  intro f
  induction f using Nat.strong_induction_on with
  | _ f ih =>
    intro i hi
    cases f with
    | zero => omega
    | succ f =>
      show keyAtF g (f + 1) i = keyAtF g (i + 1) i
      simp only [keyAtF]
      congr 2
      apply List.map_congr_left
      intro u hu
      have hui : u < i := wffb_ups g hw i u hu
      have h1 : keyAtF g f u = keyAt g u := ih f (by omega) u (by omega)
      have h2 : keyAtF g i u = keyAt g u := ih i (by omega) u hui
      rw [h1, h2]

theorem keyAt_unfold (g : List Stage) (hw : wffb g = true) (i : Nat) :
    keyAt g i = CacheKey.mk (dstage g i).executableRef (canonArgs (dstage g i).args)
      (sortKeys ((dstage g i).upstreams.map (fun u => keyAt g u))) := by
  show keyAtF g (i + 1) i = _
  simp only [keyAtF]
  congr 2
  apply List.map_congr_left
  intro u hu
  exact keyAtF_stable g hw i u (wffb_ups g hw i u hu)

theorem reachF_stable (g : List Stage) (s : Nat) (hw : wffb g = true) :
    ∀ f i, i < f → reachF g s f i = reach g s i := by
  intro f
  induction f using Nat.strong_induction_on with
  | _ f ih =>
    intro i hi
    cases f with
    | zero => omega
    | succ f =>
      show reachF g s (f + 1) i = reachF g s (i + 1) i
      simp only [reachF]
      congr 1
      apply any_congr_mem
      intro u hu
      have hui : u < i := wffb_ups g hw i u hu
      have h1 : reachF g s f u = reach g s u := ih f (by omega) u (by omega)
      have h2 : reachF g s i u = reach g s u := ih i (by omega) u hui
      rw [h1, h2]

theorem reach_unfold (g : List Stage) (s : Nat) (hw : wffb g = true) (i : Nat) :
    reach g s i
      = (i == s || (dstage g i).upstreams.any (fun u => reach g s u)) := by
  show reachF g s (i + 1) i = _
  simp only [reachF]
  congr 1
  apply any_congr_mem
  intro u hu
  exact reachF_stable g s hw i u (wffb_ups g hw i u hu)

theorem reach_self (g : List Stage) (s : Nat) : reach g s s = true := by
  cases s <;> simp [reach, reachF]

theorem reach_le (g : List Stage) (s : Nat) (hw : wffb g = true) :
    ∀ i, reach g s i = true → s ≤ i := by
  intro i
  induction i using Nat.strong_induction_on with
  | _ i ih =>
    intro hr
    rw [reach_unfold g s hw i] at hr
    rcases Bool.or_eq_true_iff.mp hr with h | h
    · have : i = s := by simpa using h
      omega
    · rcases List.any_eq_true.mp h with ⟨u, hu, hru⟩
      have h1 := ih u (wffb_ups g hw i u hu) hru
      have h2 := wffb_ups g hw i u hu
      omega

theorem availAtF_stable (g : List Stage) (hw : wffb g = true) :
    ∀ f i, i < f → availAtF g f i = availAt g i := by
  intro f
  induction f using Nat.strong_induction_on with
  | _ f ih =>
    intro i hi
    cases f with
    | zero => omega
    | succ f =>
      show availAtF g (f + 1) i = availAtF g (i + 1) i
      simp only [availAtF]
      apply flatMap_congr_mem
      intro u hu
      have hui : u < i := wffb_ups g hw i u hu
      have h1 : availAtF g f u = availAt g u := ih f (by omega) u (by omega)
      have h2 : availAtF g i u = availAt g u := ih i (by omega) u hui
      rw [h1, h2]

theorem availAt_unfold (g : List Stage) (hw : wffb g = true) (i : Nat) :
    availAt g i
      = (dstage g i).upstreams.flatMap
          (fun u => availAt g u ++ (dstage g u).produces) := by
  show availAtF g (i + 1) i = _
  simp only [availAtF]
  apply flatMap_congr_mem
  intro u hu
  rw [availAtF_stable g hw i u (wffb_ups g hw i u hu)]

theorem cntNodesList_eq_sum (t : String × List (String × String)) (l : List CacheKey) :
    cntNodesList t l = (l.map (cntNodes t)).sum := by
  induction l with
  | nil => rfl
  | cons k ks ih => simp [cntNodesList, ih]

theorem cntNodes_mk (t : String × List (String × String)) (r : String)
    (a : List (String × String)) (us : List CacheKey) :
    cntNodes t (.mk r a us)
      = (if (r, a) = t then 1 else 0) + (us.map (cntNodes t)).sum := by
  rw [cntNodes, cntNodesList_eq_sum]

theorem sum_map_sortKeys (f : CacheKey → Nat) (l : List CacheKey) :
    ((sortKeys l).map f).sum = (l.map f).sum :=
  List.Perm.sum_eq (List.Perm.map f (List.perm_insertionSort keyLE l))

theorem sum_le_sum_pointwise {α : Type} (l : List α) (f g f' g' : α → Nat)
    (hle : ∀ x ∈ l, f x + g x ≤ f' x + g' x) :
    (l.map f).sum + (l.map g).sum ≤ (l.map f').sum + (l.map g').sum := by
  induction l with
  | nil => simp
  | cons hd tl ih =>
    simp only [List.map_cons, List.sum_cons]
    have h1 := hle hd (by simp)
    have h2 := ih (fun y hy => hle y (List.mem_cons_of_mem _ hy))
    omega

theorem sum_lt_sum_pointwise {α : Type} (l : List α) (f g f' g' : α → Nat)
    (hle : ∀ x ∈ l, f x + g x ≤ f' x + g' x)
    (hlt : ∃ x ∈ l, f x + g x < f' x + g' x) :
    (l.map f).sum + (l.map g).sum < (l.map f').sum + (l.map g').sum := by
  induction l with
  | nil => simp at hlt
  | cons hd tl ih =>
    simp only [List.map_cons, List.sum_cons]
    rcases hlt with ⟨x, hx, hxlt⟩
    rcases List.mem_cons.mp hx with rfl | hxtl
    · have h2 := sum_le_sum_pointwise tl f g f' g'
        (fun y hy => hle y (List.mem_cons_of_mem _ hy))
      omega
    · have h1 := hle hd (by simp)
      have h2 := ih (fun y hy => hle y (List.mem_cons_of_mem _ hy)) ⟨x, hxtl, hxlt⟩
      omega

theorem dstage_set_self (g : List Stage) (s : Nat) (st : Stage) (hs : s < g.length) :
    dstage (g.set s st) s = st := by
  rw [dstage_eq_get?, List.get?_eq_getElem?, List.getElem?_set_self (by simpa using hs)]
  rfl

theorem dstage_set_ne (g : List Stage) (s : Nat) (st : Stage) (i : Nat) (h : i ≠ s) :
    dstage (g.set s st) i = dstage g i := by
  rw [dstage_eq_get?, List.get?_eq_getElem?, List.getElem?_set_ne (fun hc => h hc.symm),
    ← List.get?_eq_getElem?, ← dstage_eq_get?]

theorem dstage_setArgs_self (g : List Stage) (s : Nat) (a : List (String × String))
    (hs : s < g.length) :
    dstage (setArgs g s a) s = { dstage g s with args := a } :=
  dstage_set_self g s _ hs

theorem dstage_setArgs_ne (g : List Stage) (s : Nat) (a : List (String × String))
    (i : Nat) (h : i ≠ s) :
    dstage (setArgs g s a) i = dstage g i :=
  dstage_set_ne g s _ i h

theorem upstreams_setArgs (g : List Stage) (s : Nat) (a : List (String × String))
    (i : Nat) :
    (dstage (setArgs g s a) i).upstreams = (dstage g i).upstreams := by
  by_cases h : i = s
  · subst h
    by_cases hs : i < g.length
    · rw [dstage_setArgs_self g i a hs]
    · unfold setArgs
      rw [List.set_eq_of_length_le (by omega)]
  · rw [dstage_setArgs_ne g s a i h]

theorem wffb_setArgs (g : List Stage) (s : Nat) (a : List (String × String))
    (hw : wffb g = true) : wffb (setArgs g s a) = true := by
  unfold wffb at hw ⊢
  rw [List.all_eq_true] at hw ⊢
  intro i hi
  have hi' : i ∈ List.range g.length := by
    simpa [setArgs, List.length_set] using hi
  rw [upstreams_setArgs]
  exact hw i hi'

theorem reach_false_ups (g : List Stage) (s i : Nat) (hw : wffb g = true)
    (hnr : reach g s i = false) :
    ∀ u ∈ (dstage g i).upstreams, reach g s u = false := by
  intro u hu
  rw [reach_unfold g s hw i] at hnr
  rcases Bool.or_eq_false_iff.mp hnr with ⟨_, hany⟩
  exact Bool.eq_false_iff.mpr (List.any_eq_false.mp hany u hu)

theorem dstage_setArgs_ref (g : List Stage) (s : Nat) (na : List (String × String))
    (hs : s < g.length) :
    (dstage (setArgs g s na) s).executableRef = (dstage g s).executableRef := by
  rw [dstage_setArgs_self g s na hs]

theorem dstage_setArgs_args (g : List Stage) (s : Nat) (na : List (String × String))
    (hs : s < g.length) :
    (dstage (setArgs g s na) s).args = na := by
  rw [dstage_setArgs_self g s na hs]

theorem keyAt_setArgs_split (g : List Stage) (s : Nat) (na : List (String × String))
    (hw : wffb g = true) (hs : s < g.length)
    (hargs : canonArgs na ≠ canonArgs (dstage g s).args) :
    ∀ i,
      (reach g s i = false → keyAt (setArgs g s na) i = keyAt g i)
      ∧ (reach g s i = true →
          cntNodes ((dstage g s).executableRef, canonArgs na) (keyAt (setArgs g s na) i)
            + cntNodes ((dstage g s).executableRef, canonArgs (dstage g s).args) (keyAt g i)
          > cntNodes ((dstage g s).executableRef, canonArgs na) (keyAt g i)
            + cntNodes ((dstage g s).executableRef, canonArgs (dstage g s).args)
                (keyAt (setArgs g s na) i)) := by
  have hw' : wffb (setArgs g s na) = true := wffb_setArgs g s na hw
  intro i
  induction i using Nat.strong_induction_on with
  | _ i ih =>
    constructor
    · intro hnr
      have hi_ne : i ≠ s := by
        intro h
        rw [h, reach_self] at hnr
        cases hnr
      have hups := reach_false_ups g s i hw hnr
      rw [keyAt_unfold _ hw' i, keyAt_unfold _ hw i, dstage_setArgs_ne g s na i hi_ne]
      congr 2
      apply List.map_congr_left
      intro u hu
      exact (ih u (wffb_ups g hw i u hu)).1 (hups u hu)
    · intro hr
      by_cases hi : i = s
      · rcases hi with rfl
        have hups : ∀ u ∈ (dstage g i).upstreams, reach g i u = false := by
          intro u hu
          cases hru : reach g i u with
          | false => rfl
          | true =>
            have h1 := reach_le g i hw u hru
            have h2 := wffb_ups g hw i u hu
            omega
        have hmap : (dstage (setArgs g i na) i).upstreams.map
              (fun u => keyAt (setArgs g i na) u)
            = (dstage g i).upstreams.map (fun u => keyAt g u) := by
          rw [upstreams_setArgs]
          exact List.map_congr_left
            (fun u hu => (ih u (wffb_ups g hw i u hu)).1 (hups u hu))
        rw [keyAt_unfold _ hw' i, keyAt_unfold _ hw i, hmap,
          dstage_setArgs_ref g i na hs, dstage_setArgs_args g i na hs]
        rw [cntNodes_mk, cntNodes_mk, cntNodes_mk, cntNodes_mk]
        rw [if_pos rfl, if_pos rfl,
          if_neg (fun h : ((dstage g i).executableRef, canonArgs na)
              = ((dstage g i).executableRef, canonArgs (dstage g i).args) =>
            hargs (congrArg Prod.snd h)),
          if_neg (fun h : ((dstage g i).executableRef, canonArgs (dstage g i).args)
              = ((dstage g i).executableRef, canonArgs na) =>
            hargs (congrArg Prod.snd h).symm)]
        omega
      · have hany : ∃ u ∈ (dstage g i).upstreams, reach g s u = true := by
          rw [reach_unfold g s hw i] at hr
          rcases Bool.or_eq_true_iff.mp hr with h | h
          · exact absurd (by simpa using h) hi
          · exact List.any_eq_true.mp h
        have hle : ∀ u ∈ (dstage g i).upstreams,
            cntNodes ((dstage g s).executableRef, canonArgs na) (keyAt g u)
              + cntNodes ((dstage g s).executableRef, canonArgs (dstage g s).args)
                  (keyAt (setArgs g s na) u)
            ≤ cntNodes ((dstage g s).executableRef, canonArgs na)
                  (keyAt (setArgs g s na) u)
              + cntNodes ((dstage g s).executableRef, canonArgs (dstage g s).args)
                  (keyAt g u) := by
          intro u hu
          cases hru : reach g s u with
          | false =>
            have he := (ih u (wffb_ups g hw i u hu)).1 hru
            rw [he]
          | true =>
            have hgt := (ih u (wffb_ups g hw i u hu)).2 hru
            omega
        have hlt0 : ∃ u ∈ (dstage g i).upstreams,
            cntNodes ((dstage g s).executableRef, canonArgs na) (keyAt g u)
              + cntNodes ((dstage g s).executableRef, canonArgs (dstage g s).args)
                  (keyAt (setArgs g s na) u)
            < cntNodes ((dstage g s).executableRef, canonArgs na)
                  (keyAt (setArgs g s na) u)
              + cntNodes ((dstage g s).executableRef, canonArgs (dstage g s).args)
                  (keyAt g u) := by
          rcases hany with ⟨u, hu, hru⟩
          refine ⟨u, hu, ?_⟩
          have hgt := (ih u (wffb_ups g hw i u hu)).2 hru
          omega
        have hsum := sum_lt_sum_pointwise (dstage g i).upstreams
          (fun u => cntNodes ((dstage g s).executableRef, canonArgs na) (keyAt g u))
          (fun u => cntNodes ((dstage g s).executableRef, canonArgs (dstage g s).args)
              (keyAt (setArgs g s na) u))
          (fun u => cntNodes ((dstage g s).executableRef, canonArgs na)
              (keyAt (setArgs g s na) u))
          (fun u => cntNodes ((dstage g s).executableRef, canonArgs (dstage g s).args)
              (keyAt g u))
          hle hlt0
        rw [keyAt_unfold _ hw' i, keyAt_unfold _ hw i, dstage_setArgs_ne g s na i hi]
        rw [cntNodes_mk, cntNodes_mk, cntNodes_mk, cntNodes_mk,
          sum_map_sortKeys, sum_map_sortKeys, sum_map_sortKeys, sum_map_sortKeys,
          List.map_map, List.map_map, List.map_map, List.map_map]
        simp only [Function.comp_def] at hsum ⊢
        omega

/-- C3: after changing only stage s's argument values (to a canonically
different assignment) and recompiling, a stage's cache key differs exactly
when the stage is s itself or lies downstream of s (has a path from s);
all other stages — in particular siblings on independent branches — keep
their cache keys unchanged. -/
theorem c3_cache_key_frame (g : List Stage) (s : Nat) (na : List (String × String))
    (hw : wffb g = true) (hs : s < g.length)
    (hargs : canonArgs na ≠ canonArgs (dstage g s).args) (i : Nat) :
    keyAt (setArgs g s na) i ≠ keyAt g i ↔ reach g s i = true := by
  constructor
  · intro hne
    cases hrv : reach g s i with
    | true => rfl
    | false => exact absurd ((keyAt_setArgs_split g s na hw hs hargs i).1 hrv) hne
  · intro hrv heq
    have h := (keyAt_setArgs_split g s na hw hs hargs i).2 hrv
    rw [heq] at h
    omega

/-- Witness for C3 on the concrete fan-out graph: changing stage 1's
arguments changes the key of its downstream stage 3 and leaves the sibling
stage 2 unchanged. -/
theorem c3_cache_key_frame_witness :
    wffb fanOutPipeline = true
    ∧ 1 < fanOutPipeline.length
    ∧ canonArgs fanOutArgsV2 ≠ canonArgs (dstage fanOutPipeline 1).args
    ∧ (keyAt (setArgs fanOutPipeline 1 fanOutArgsV2) 3 ≠ keyAt fanOutPipeline 3
        ↔ reach fanOutPipeline 1 3 = true)
    ∧ (keyAt (setArgs fanOutPipeline 1 fanOutArgsV2) 2 ≠ keyAt fanOutPipeline 2
        ↔ reach fanOutPipeline 1 2 = true) :=
  ⟨by decide, by decide, by decide,
   c3_cache_key_frame fanOutPipeline 1 fanOutArgsV2 (by decide) (by decide) (by decide) 3,
   c3_cache_key_frame fanOutPipeline 1 fanOutArgsV2 (by decide) (by decide) (by decide) 2⟩

/-- C2: finalize() followed by compile() is deterministic — two finalize runs
on the unmodified graph return the same frozen graph, and the two compiled
manifests are identical, with every stage receiving the same cache key in
both runs. -/
theorem c2_finalize_compile_deterministic (g gf1 gf2 : List Stage)
    (h1 : finalizeGraph g = .ok gf1) (h2 : finalizeGraph g = .ok gf2) :
    gf1 = gf2 ∧ compileManifest gf1 = compileManifest gf2
    ∧ ∀ i, keyAt gf1 i = keyAt gf2 i := by
  rw [h1] at h2
  cases h2
  exact ⟨rfl, rfl, fun i => rfl⟩

/-- Witness for C2 on the concrete ControlNet pipeline (CPU environment). -/
theorem c2_finalize_compile_deterministic_witness :
    finalizeGraph (controlnetPipeline false) = .ok (controlnetPipeline false)
    ∧ (compileManifest (controlnetPipeline false)
        = compileManifest (controlnetPipeline false)
       ∧ ∀ i, keyAt (controlnetPipeline false) i = keyAt (controlnetPipeline false) i) :=
  ⟨by rfl,
   (c2_finalize_compile_deterministic (controlnetPipeline false)
      (controlnetPipeline false) (controlnetPipeline false)
      (by rfl) (by rfl)).2⟩

/-- C1: the linear notebook pipeline (source, retrieval, download, caption,
segmentation in declaration order) validates successfully, finalizes, and
compiles to a manifest with exactly one entry per stage in declaration
order; re-compiling after changing only the final stage's arguments leaves
the cache keys of stages 0-3 unchanged and changes only the final stage's
cache key.  Both environment outcomes (GPU found or not) are covered. -/
theorem c1_end_to_end_pipeline (gpu : Bool) :
    validate (controlnetPipeline gpu) = []
    ∧ finalizeGraph (controlnetPipeline gpu) = .ok (controlnetPipeline gpu)
    ∧ (compileManifest (controlnetPipeline gpu)).length
        = (controlnetPipeline gpu).length
    ∧ (compileManifest (controlnetPipeline gpu)).map (fun e => e.stageName)
        = ["generate_prompts", "retrieve_from_faiss_by_prompt",
           "download_images", "caption_images", "segment_images"]
    ∧ validate (controlnetPipelineV2 gpu) = []
    ∧ keyAt (controlnetPipelineV2 gpu) 0 = keyAt (controlnetPipeline gpu) 0
    ∧ keyAt (controlnetPipelineV2 gpu) 1 = keyAt (controlnetPipeline gpu) 1
    ∧ keyAt (controlnetPipelineV2 gpu) 2 = keyAt (controlnetPipeline gpu) 2
    ∧ keyAt (controlnetPipelineV2 gpu) 3 = keyAt (controlnetPipeline gpu) 3
    ∧ keyAt (controlnetPipelineV2 gpu) 4 ≠ keyAt (controlnetPipeline gpu) 4 := by
  cases gpu <;>
    exact ⟨by decide, by rfl, by decide, by decide, by decide,
      rfl, rfl, rfl, rfl,
      fun h => absurd (congrArg keyArgs h) (by decide)⟩

/-- C4: whenever a stage's consumes schema is not a structural subset of the
union of its upstreams' produces, validation emits a SchemaError for that
stage carrying the full structured mismatch list — a non-empty list of
(subset, field, expected_type, actual_type_or_missing) tuples in which every
missing or mismatched required field is named. -/
theorem c4_schema_error_names_missing_fields (g : List Stage) (i : Nat)
    (hi : i < g.length)
    (hbad : is_subset (dstage g i).consumes (availAt g i) = false) :
    PipelineError.schemaErr i (schemaMismatches (dstage g i).consumes (availAt g i))
        ∈ validate g
    ∧ schemaMismatches (dstage g i).consumes (availAt g i) ≠ []
    ∧ (∀ sn fields fn ft, (sn, fields) ∈ (dstage g i).consumes → (fn, ft) ∈ fields →
        lookupFieldType (availAt g i) sn fn ≠ some ft →
        (sn, fn, ft, lookupFieldType (availAt g i) sn fn)
          ∈ schemaMismatches (dstage g i).consumes (availAt g i)) := by
  have hne : schemaMismatches (dstage g i).consumes (availAt g i) ≠ [] := by
    intro h
    rw [← is_subset_iff_no_mismatches] at h
    rw [h] at hbad
    cases hbad
  refine ⟨?_, hne, ?_⟩
  · unfold validate
    rw [List.mem_flatMap]
    refine ⟨i, List.mem_range.mpr hi, ?_⟩
    unfold validateStage
    rw [if_neg hne]
    simp
  · intro sn fields fn ft hsub hf hmiss
    exact mem_schemaMismatches_of_missing _ _ sn fields fn ft hsub hf hmiss

/-- Witness for C4: the end-to-end scenario — a consumer of captions.caption
downstream of a producer of captions.text fails validation with a SchemaError
naming caption as missing. -/
theorem c4_schema_error_names_missing_fields_witness :
    1 < mismatchPipeline.length
    ∧ is_subset (dstage mismatchPipeline 1).consumes (availAt mismatchPipeline 1) = false
    ∧ PipelineError.schemaErr 1
        [("captions", "caption", FieldType.string, none)] ∈ validate mismatchPipeline
    ∧ ("captions", "caption", FieldType.string,
        lookupFieldType (availAt mismatchPipeline 1) "captions" "caption")
        ∈ schemaMismatches (dstage mismatchPipeline 1).consumes
            (availAt mismatchPipeline 1) := by
  refine ⟨by decide, by decide, ?_, ?_⟩
  · have h := (c4_schema_error_names_missing_fields mismatchPipeline 1
      (by decide) (by decide)).1
    have he : schemaMismatches (dstage mismatchPipeline 1).consumes
        (availAt mismatchPipeline 1)
        = [("captions", "caption", FieldType.string, none)] := by decide
    rw [he] at h
    exact h
  · exact (c4_schema_error_names_missing_fields mismatchPipeline 1
      (by decide) (by decide)).2.2 "captions" [("caption", FieldType.string)]
      "caption" FieldType.string (by decide) (by decide) (by decide)

/-- C5: instantiating the same generic stage twice with two schema overrides
yields two independent StageDescriptors: each instantiation succeeds exactly
when its own override satisfies the generic stage's declared minimum
capability set (failing with a SchemaError otherwise), each produced
descriptor carries exactly its own override (so neither instantiation
affects the other), and different consumes overrides yield distinct
descriptors. -/
theorem c5_generic_instantiation_independent (gen : GenericStage)
    (o1 o2 p1 p2 : Schema) :
    ((instantiate gen o1 p1).isOk = true
      ↔ satisfiesCapability gen.capability o1 = true)
    ∧ ((instantiate gen o2 p2).isOk = true
      ↔ satisfiesCapability gen.capability o2 = true)
    ∧ ((instantiate gen o1 p1).isOk = false
      → ∃ missing, instantiate gen o1 p1 = .error (.overrideErr missing))
    ∧ (∀ d1, instantiate gen o1 p1 = .ok d1 → d1.consumes = o1 ∧ d1.produces = p1)
    ∧ (∀ d2, instantiate gen o2 p2 = .ok d2 → d2.consumes = o2 ∧ d2.produces = p2)
    ∧ (o1 ≠ o2 → ∀ d1 d2, instantiate gen o1 p1 = .ok d1 →
        instantiate gen o2 p2 = .ok d2 → d1 ≠ d2) := by
  unfold instantiate
  by_cases h1 : satisfiesCapability gen.capability o1 = true
  <;> by_cases h2 : satisfiesCapability gen.capability o2 = true
  <;> simp [h1, h2, Except.isOk, Except.toBool]
  all_goals
    intro hne h hp
    exact hne h

/-- Witness for C5 on the notebook's generic write stage: the controlnet
override (images/captions/segmentations) and the flat hub override both
satisfy the one-binary-field capability and give distinct descriptors, while
an override with no binary field is rejected. -/
theorem c5_generic_instantiation_independent_witness :
    ((instantiate write_to_hf_hub writeConsumesControlnet [] ).isOk = true
      ↔ satisfiesCapability write_to_hf_hub.capability writeConsumesControlnet = true)
    ∧ satisfiesCapability write_to_hf_hub.capability writeConsumesControlnet = true
    ∧ ((instantiate write_to_hf_hub writeConsumesNoBinary [] ).isOk = true
      ↔ satisfiesCapability write_to_hf_hub.capability writeConsumesNoBinary = true)
    ∧ satisfiesCapability write_to_hf_hub.capability writeConsumesNoBinary = false
    ∧ (writeConsumesControlnet ≠ writeConsumesHub
        → ∀ d1 d2, instantiate write_to_hf_hub writeConsumesControlnet [] = .ok d1 →
            instantiate write_to_hf_hub writeConsumesHub [] = .ok d2 → d1 ≠ d2) :=
  ⟨(c5_generic_instantiation_independent write_to_hf_hub
      writeConsumesControlnet writeConsumesNoBinary [] []).1,
   by decide,
   (c5_generic_instantiation_independent write_to_hf_hub
      writeConsumesControlnet writeConsumesNoBinary [] []).2.1,
   by decide,
   (c5_generic_instantiation_independent write_to_hf_hub
      writeConsumesControlnet writeConsumesHub [] []).2.2.2.2.2⟩

/-- C6: every stage of the notebook pipeline, in both environment outcomes,
satisfies the resource-sanity invariant: the accelerator count is absent or a
non-negative integer, a positive count always comes with an accelerator
kind, and in fact count and kind are set together — either count 1 with kind
"GPU", or both None. -/
theorem c6_resource_sanity (gpu : Bool) (st : Stage)
    (hst : st ∈ controlnetPipeline gpu) :
    (∀ n : Int, st.resources.accelerator_number = some n → 0 ≤ n)
    ∧ (∀ n : Int, st.resources.accelerator_number = some n → 0 < n →
        st.resources.accelerator_name ≠ none)
    ∧ ((st.resources.accelerator_number = some 1
          ∧ st.resources.accelerator_name = some "GPU")
       ∨ (st.resources.accelerator_number = none
          ∧ st.resources.accelerator_name = none))
    ∧ resourceOk st.resources = true := by
  have hpair : (st.resources.accelerator_number = some 1
      ∧ st.resources.accelerator_name = some "GPU")
      ∨ (st.resources.accelerator_number = none
      ∧ st.resources.accelerator_name = none) := by
    cases gpu <;>
      simp only [controlnetPipeline, List.mem_cons, List.not_mem_nil, or_false] at hst <;>
      rcases hst with rfl | rfl | rfl | rfl | rfl <;> decide
  rcases hpair with ⟨hn, hk⟩ | ⟨hn, hk⟩
  · refine ⟨?_, ?_, Or.inl ⟨hn, hk⟩, ?_⟩
    · intro n h
      rw [hn] at h
      injection h with h'
      omega
    · intro n h hpos
      rw [hk]
      simp
    · simp [resourceOk, hn, hk]
  · refine ⟨?_, ?_, Or.inr ⟨hn, hk⟩, ?_⟩
    · intro n h
      rw [hn] at h
      cases h
    · intro n h
      rw [hn] at h
      cases h
    · simp [resourceOk, hn]

/-- Witness for C6 at the retrieval stage in the GPU environment. -/
theorem c6_resource_sanity_witness :
    retrieve_stage true ∈ controlnetPipeline true
    ∧ (((retrieve_stage true).resources.accelerator_number = some 1
          ∧ (retrieve_stage true).resources.accelerator_name = some "GPU")
       ∨ ((retrieve_stage true).resources.accelerator_number = none
          ∧ (retrieve_stage true).resources.accelerator_name = none))
    ∧ resourceOk (retrieve_stage true).resources = true :=
  ⟨by decide,
   (c6_resource_sanity true (retrieve_stage true) (by decide)).2.2.1,
   (c6_resource_sanity true (retrieve_stage true) (by decide)).2.2.2⟩

/-- C7: add_source succeeds exactly when the inserted stage's consumes schema
is empty; in every graph that passes validation, exactly the stages with no
incoming edge have an empty consumes schema; and the prompt-generation source
stage of this pipeline consumes no data and has no upstream. -/
theorem c7_source_stages_empty_consumes (g : List Stage) (st : Stage) :
    ((add_source g st).isOk = true ↔ st.consumes = [])
    ∧ (validate g = [] → ∀ i, i < g.length →
        ((dstage g i).upstreams = [] ↔ (dstage g i).consumes = []))
    ∧ generate_prompts_stage.consumes = []
    ∧ generate_prompts_stage.upstreams = [] := by
  refine ⟨?_, ?_, rfl, rfl⟩
  · unfold add_source
    by_cases h : st.consumes = ([] : Schema)
    · simp [h, Except.isOk, Except.toBool]
    · simp [h, Except.isOk, Except.toBool]
  · intro hv i hi
    have hstage : validateStage g i = [] := by
      have h := List.flatMap_eq_nil_iff.mp hv
      exact h i (List.mem_range.mpr hi)
    unfold validateStage at hstage
    rcases List.append_eq_nil.mp hstage with ⟨h3, _⟩
    rcases List.append_eq_nil.mp h3 with ⟨h2, hshape⟩
    have hbe : (dstage g i).upstreams.isEmpty = (dstage g i).consumes.isEmpty := by
      by_cases hb : ((dstage g i).upstreams.isEmpty
          == (dstage g i).consumes.isEmpty) = true
      · exact beq_iff_eq.mp hb
      · rw [if_neg hb] at hshape
        cases hshape
    constructor
    · intro h
      have : (dstage g i).consumes.isEmpty = true := by
        rw [← hbe, h]
        rfl
      exact List.isEmpty_iff.mp this
    · intro h
      have : (dstage g i).upstreams.isEmpty = true := by
        rw [hbe, h]
        rfl
      exact List.isEmpty_iff.mp this

/-- Witness for C7: adding the prompt source succeeds, the validated
ControlNet pipeline satisfies the source/consumes equivalence at its source
stage 0 and at the dependent stage 1. -/
theorem c7_source_stages_empty_consumes_witness :
    (add_source [] generate_prompts_stage).isOk = true
    ∧ validate (controlnetPipeline false) = []
    ∧ ((dstage (controlnetPipeline false) 0).upstreams = []
        ↔ (dstage (controlnetPipeline false) 0).consumes = [])
    ∧ ((dstage (controlnetPipeline false) 1).upstreams = []
        ↔ (dstage (controlnetPipeline false) 1).consumes = []) :=
  ⟨(c7_source_stages_empty_consumes [] generate_prompts_stage).1.mpr rfl,
   by decide,
   (c7_source_stages_empty_consumes (controlnetPipeline false) dummyStage).2.1
     (by decide) 0 (by decide),
   (c7_source_stages_empty_consumes (controlnetPipeline false) dummyStage).2.1
     (by decide) 1 (by decide)⟩
